import Mathlib

/-!
Shallow embedding of the case-expansion, metadata-subsetting and
output-path-resolution logic of `routine_qiime2_analyses`, together with
proofs of the stated properties.

Source files embedded (paths relative to the repository root):
- `routine_qiime2_analyses/_routine_q2_cmds.py`
    (`get_case`, `get_new_meta_pd`, `check_absence_mat`, and the
     parameter list of `write_doc`)
- `routine_qiime2_analyses/_routine_q2_alpha.py`
    (inline subsetting of `run_multi_kw`, case expansion of
     `run_alpha_group_significance`)
- `routine_qiime2_analyses/_routine_q2_permanova.py` (`run_permanova` loop)
- `routine_qiime2_analyses/_routine_q2_doc.py` (`run_single_doc`)
- `routine_qiime2_analyses/_routine_q2_io_utils.py` (`get_paths`)

File-system queries (`os.path.isfile`) are modelled by an explicit
parameter `fs : String -> Bool`; randomness and the clock are modelled by
explicit parameters as well.  Python floats are modelled by rationals.
-/

deriving instance DecidableEq for Except

namespace RoutineQ2

/-! ## Python string primitives -/

/-- Python `str.replace` on lists of characters: replace every
non-overlapping occurrence of `pat` by `rep`, scanning left to right.
Structured with an explicit fuel argument (initialised to the string
length) so that the definition is structurally recursive and evaluates
inside the kernel. -/
def replaceFuel (pat rep : List Char) : Nat → List Char → List Char
  | _, [] => []
  | 0, s => s
  | fuel + 1, c :: rest =>
    if pat ≠ [] ∧ pat.isPrefixOf (c :: rest) then
      rep ++ replaceFuel pat rep fuel ((c :: rest).drop pat.length)
    else
      c :: replaceFuel pat rep fuel rest

/-- Python `s.replace(pat, rep)` (for non-empty `pat`, as used throughout
the source). -/
def pyReplace (s pat rep : String) : String :=
  String.mk (replaceFuel pat.data rep.data s.data.length s.data)

/-- Python `sub in s` (substring containment test, used by the source as
`'ALL' in case`). -/
def pySub (needle hay : List Char) : Bool :=
  match hay with
  | [] => needle.isEmpty
  | _ :: t => needle.isPrefixOf hay || pySub needle t

/-- Python `sub in s` on strings. -/
def pyContains (hay needle : String) : Bool :=
  pySub needle.data hay.data

/-- Python `s[0]` as an optional first character (the source never applies
it to an empty token). -/
def pyFirst (s : String) : Option Char :=
  s.data.head?

/-- Python `'-'.join(xs)`. -/
def pyJoin (sep : String) (xs : List String) : String :=
  String.intercalate sep xs

/-! ## `get_case` (`_routine_q2_cmds.py`, lines 1447-1467)

```python
def get_case(case_vals: list, case_var: str, form: str = None) -> str:
    if len(case_vals):
        case = '%s_%s' % (case_var, '-'.join(
            [x.replace('<', 'below').replace('>', 'above') for x in case_vals]))
    else:
        case = case_var
    if form:
        case = '%s_%s' % (case, form)
    case = case.replace('__', '_').replace(' ', '-').replace('/', '')
               .replace('(', '').replace(')', '')
    return case
```
`form = None` and `form = ''` are both falsy in Python; `form` is modelled
as an `Option String` and the truthiness test is explicit. -/

/-- The per-value sanitisation `x.replace('<', 'below').replace('>', 'above')`. -/
def sanitizeVal (x : String) : String :=
  pyReplace (pyReplace x "<" "below") ">" "above"

/-- The final cleanup chain applied to the assembled label. -/
def cleanLabel (s : String) : String :=
  pyReplace (pyReplace (pyReplace (pyReplace (pyReplace s "__" "_") " " "-") "/" "") "(" "") ")" ""

/-- `get_case` from `_routine_q2_cmds.py`. -/
def get_case (case_vals : List String) (case_var : String) (form : Option String) : String :=
  let cas :=
    if case_vals.length ≠ 0 then
      case_var ++ "_" ++ pyJoin "-" (case_vals.map sanitizeVal)
    else
      case_var
  let cas :=
    match form with
    | some f => if f = "" then cas else cas ++ "_" ++ f
    | none => cas
  cleanLabel cas

/-! ## Metadata tables

A pandas DataFrame as used by the subsetting code: rows keyed by a sample
identifier, a fixed column list, and for each row an association of column
name to cell.  A cell is a categorical string, a number, or missing (NaN);
pandas tables are rectangular, so a column absent from a row's association
list reads as NaN. -/

/-- One metadata cell. -/
inductive Cell where
  | str (s : String)
  | num (q : ℚ)
  | na
deriving DecidableEq, Repr

/-- Exceptions raised by the embedded Python code. -/
inductive PError where
  | keyError
  | valueError
  | typeError
deriving DecidableEq, Repr

/-- One metadata row: sample identifier plus cells by column name. -/
structure Row where
  sid : String
  cells : List (String × Cell)
deriving DecidableEq, Repr

/-- A metadata table. -/
structure MetaPd where
  columns : List String
  rows : List Row
deriving DecidableEq, Repr

/-- Read a row's cell in a column (missing entries read as NaN, matching a
rectangular DataFrame). -/
def rowGet (r : Row) (c : String) : Cell :=
  match r.cells.lookup c with
  | some v => v
  | none => Cell.na

/-! ## Python `float()` on decimal literals

`float(case_val[1:])` and `.astype(float)` are modelled on the decimal
literals the configuration files use: optional sign, integer part,
optional fractional part.  Exponents, `inf`/`nan` and surrounding
whitespace are not modelled (no such tokens occur in the embedded
claims). -/

/-- Digit-string to natural number (`none` unless non-empty and all
digits). -/
def digitsNat? (cs : List Char) : Option Nat :=
  if cs ≠ [] ∧ cs.all Char.isDigit then
    some (cs.foldl (fun n c => n * 10 + (c.toNat - 48)) 0)
  else none

/-- Split a character list at the occurrences of `'.'`. -/
def splitDotAux : List Char → List Char → List (List Char)
  | [], acc => [acc.reverse]
  | c :: rest, acc =>
    if c = '.' then acc.reverse :: splitDotAux rest [] else splitDotAux rest (c :: acc)

/-- Split a character list at `'.'`. -/
def splitDot (cs : List Char) : List (List Char) :=
  splitDotAux cs []

/-- Parse an unsigned decimal literal to a rational. -/
def parseUnsigned? (body : List Char) : Option ℚ :=
  match splitDot body with
  | [i] => (digitsNat? i).map (fun n => (n : ℚ))
  | [i, f] =>
    if i = [] ∧ f = [] then none
    else
      match (if i = [] then some 0 else digitsNat? i),
            (if f = [] then some 0 else digitsNat? f) with
      | some ni, some nf => some ((ni : ℚ) + (nf : ℚ) / (10 : ℚ) ^ f.length)
      | _, _ => none
  | _ => none

/-- Python `float(s)` as a partial parse to a rational. -/
def parseQ? (s : String) : Option ℚ :=
  match s.data with
  | '-' :: rest => (parseUnsigned? rest).map (fun q => -q)
  | '+' :: rest => parseUnsigned? rest
  | cs => parseUnsigned? cs

/-- `float(s)`: raises `ValueError` on unparseable input. -/
def pyFloat (s : String) : Except PError ℚ :=
  match parseQ? s with
  | some q => Except.ok q
  | none => Except.error PError.valueError

/-- `.astype(float)` on one cell: numbers pass through, numeric strings
are parsed, NaN stays missing, non-numeric strings raise `ValueError`. -/
def cellFloat (c : Cell) : Except PError (Option ℚ) :=
  match c with
  | Cell.num q => Except.ok (some q)
  | Cell.na => Except.ok none
  | Cell.str s =>
    match parseQ? s with
    | some q => Except.ok (some q)
    | none => Except.error PError.valueError

/-- The value `.astype(float)` assigns to a cell when it succeeds
(`none` = NaN). -/
def qCell (c : Cell) : Option ℚ :=
  match c with
  | Cell.num q => some q
  | Cell.str s => parseQ? s
  | Cell.na => none

/-- Whether `.astype(float)` succeeds on a cell. -/
def castOk (c : Cell) : Bool :=
  match c with
  | Cell.str s => (parseQ? s).isSome
  | _ => true

/-- `x >= t` on a float column after casting: NaN compares false. -/
def optGE (x : Option ℚ) (t : ℚ) : Bool :=
  match x with
  | some q => decide (t ≤ q)
  | none => false

/-- `x <= t` on a float column after casting: NaN compares false. -/
def optLE (x : Option ℚ) (t : ℚ) : Bool :=
  match x with
  | some q => decide (q ≤ t)
  | none => false

/-- pandas `Series.isin(case_vals)` on one cell against a list of string
values: only string cells can match (floats and NaN never equal a Python
string). -/
def cellIn (c : Cell) (vals : List String) : Bool :=
  match c with
  | Cell.str s => vals.contains s
  | _ => false

/-! ## `get_new_meta_pd` (`_routine_q2_cmds.py`, lines 1593-1615)

```python
def get_new_meta_pd(meta_pd, case, case_var, case_vals):
    if 'ALL' in case:
        new_meta_pd = meta_pd.copy()
    elif len([x for x in case_vals if x[0] == '>' or x[0] == '<']):
        new_meta_pd = meta_pd.copy()
        for case_val in case_vals:
            if case_val[0] == '>':
                new_meta_pd = new_meta_pd[
                    new_meta_pd[case_var].astype(float) >= float(case_val[1:])].copy()
            elif case_val[0] == '<':
                new_meta_pd = new_meta_pd[
                    new_meta_pd[case_var].astype(float) <= float(case_val[1:])].copy()
    else:
        new_meta_pd = meta_pd[meta_pd[case_var].isin(case_vals)].copy()
    return new_meta_pd
```
Accessing `meta_pd[case_var]` raises `KeyError` when the column is absent;
the comparison first casts the whole column (raising `ValueError` on a
non-numeric string cell), then parses the threshold. -/

/-- Detection of a bound token in `get_new_meta_pd`:
`x[0] == '>' or x[0] == '<'`. -/
def isBoundTok (x : String) : Bool :=
  pyFirst x = some '>' || pyFirst x = some '<'

/-- Cast a whole column with `.astype(float)` (first failing cell raises). -/
def castColumn (c : String) : List Row → Except PError (List (Row × Option ℚ))
  | [] => Except.ok []
  | r :: rs =>
    match cellFloat (rowGet r c) with
    | Except.ok q =>
      match castColumn c rs with
      | Except.ok rest => Except.ok ((r, q) :: rest)
      | Except.error e => Except.error e
    | Except.error e => Except.error e

/-- One filter `new_meta_pd[new_meta_pd[case_var].astype(float) CMP float(v)]`.
Python evaluation order: column access (`KeyError`), cast (`ValueError` on a
bad cell), threshold parse (`ValueError`), comparison. -/
def filterBound (meta : MetaPd) (c : String) (cmp : Option ℚ → ℚ → Bool)
    (vstr : String) : Except PError MetaPd :=
  if meta.columns.contains c then
    match castColumn c meta.rows with
    | Except.ok casted =>
      match pyFloat vstr with
      | Except.ok t =>
        Except.ok ⟨meta.columns, (casted.filter (fun rq => cmp rq.2 t)).map (fun rq => rq.1)⟩
      | Except.error e => Except.error e
    | Except.error e => Except.error e
  else Except.error PError.keyError

/-- One iteration of the `for case_val in case_vals` loop of
`get_new_meta_pd`. -/
def boundStep (c : String) (meta : MetaPd) (v : String) : Except PError MetaPd :=
  if pyFirst v = some '>' then filterBound meta c optGE (v.drop 1)
  else if pyFirst v = some '<' then filterBound meta c optLE (v.drop 1)
  else Except.ok meta

/-- The `for case_val in case_vals` loop of `get_new_meta_pd`. -/
def applyBounds (c : String) (meta : MetaPd) : List String → Except PError MetaPd
  | [] => Except.ok meta
  | v :: vs =>
    match boundStep c meta v with
    | Except.ok meta2 => applyBounds c meta2 vs
    | Except.error e => Except.error e

/-- `get_new_meta_pd` from `_routine_q2_cmds.py`. -/
def get_new_meta_pd (meta : MetaPd) (cas case_var : String)
    (case_vals : List String) : Except PError MetaPd :=
  if pyContains cas "ALL" then Except.ok meta
  else if (case_vals.filter isBoundTok).length ≠ 0 then
    applyBounds case_var meta case_vals
  else if meta.columns.contains case_var then
    Except.ok ⟨meta.columns, meta.rows.filter (fun r => cellIn (rowGet r case_var) case_vals)⟩
  else Except.error PError.keyError

/-! ## Inline subsetting of `run_multi_kw`
(`_routine_q2_alpha.py`, lines 249-261)

```python
if 'ALL' in case:
    new_meta_pd = meta_pd.copy()
else:
    if len([x for x in case_vals if '>' in x or '<' in x]):
        new_meta_pd = meta_pd.copy()
        for case_val in case_vals:
            if case_val[0] == '>':
                new_meta_pd = new_meta_pd[new_meta_pd[case_var] >= float(case_val[1:])].copy()
            elif case_val[0] == '<':
                new_meta_pd = new_meta_pd[new_meta_pd[case_var] <= float(case_val[1:])].copy()
    else:
        new_meta_pd = meta_pd[meta_pd[case_var].isin(case_vals)].copy()
```

Differences from `get_new_meta_pd`: bound tokens are detected by substring
(`'>' in x`), and the column is compared raw, without `.astype(float)` —
comparing a string cell with a float raises `TypeError`. -/

/-- Detection of a bound token in `run_multi_kw`: `'>' in x or '<' in x`. -/
def isBoundTokKw (x : String) : Bool :=
  pyContains x ">" || pyContains x "<"

/-- Raw comparison of one cell with a float (`>=` when `isGE`, else `<=`):
numbers compare, NaN compares false, strings raise `TypeError`. -/
def rawCmp (isGE : Bool) (c : Cell) (t : ℚ) : Except PError Bool :=
  match c with
  | Cell.num q => Except.ok (if isGE then decide (t ≤ q) else decide (q ≤ t))
  | Cell.na => Except.ok false
  | Cell.str _ => Except.error PError.typeError

/-- Filter rows by a raw comparison of the column with a float. -/
def kwFilterRows (c : String) (isGE : Bool) (t : ℚ) :
    List Row → Except PError (List Row)
  | [] => Except.ok []
  | r :: rs =>
    match rawCmp isGE (rowGet r c) t with
    | Except.ok keep =>
      match kwFilterRows c isGE t rs with
      | Except.ok rest => Except.ok (if keep then r :: rest else rest)
      | Except.error e => Except.error e
    | Except.error e => Except.error e

/-- One iteration of the bound loop of `run_multi_kw` (column access, then
threshold parse, then raw comparison). -/
def kwBoundStep (c : String) (meta : MetaPd) (v : String) : Except PError MetaPd :=
  if pyFirst v = some '>' ∨ pyFirst v = some '<' then
    if meta.columns.contains c then
      match pyFloat (v.drop 1) with
      | Except.ok t =>
        match kwFilterRows c (pyFirst v = some '>') t meta.rows with
        | Except.ok rows2 => Except.ok ⟨meta.columns, rows2⟩
        | Except.error e => Except.error e
      | Except.error e => Except.error e
    else Except.error PError.keyError
  else Except.ok meta

/-- The bound loop of `run_multi_kw`. -/
def kwApplyBounds (c : String) (meta : MetaPd) : List String → Except PError MetaPd
  | [] => Except.ok meta
  | v :: vs =>
    match kwBoundStep c meta v with
    | Except.ok meta2 => kwApplyBounds c meta2 vs
    | Except.error e => Except.error e

/-- The metadata-subsetting slice of `run_multi_kw` from
`_routine_q2_alpha.py` (the value of `new_meta_pd` it computes). -/
def run_multi_kw_subset (meta : MetaPd) (cas case_var : String)
    (case_vals : List String) : Except PError MetaPd :=
  if pyContains cas "ALL" then Except.ok meta
  else if (case_vals.filter isBoundTokKw).length ≠ 0 then
    kwApplyBounds case_var meta case_vals
  else if meta.columns.contains case_var then
    Except.ok ⟨meta.columns, meta.rows.filter (fun r => cellIn (rowGet r case_var) case_vals)⟩
  else Except.error PError.keyError

/-! ## Output-path "needs run" rule

Guard appearing verbatim in the work-item writers, e.g.
`_routine_q2_permanova.py` line 114 (`if force or not isfile(new_qzv):`)
and `_routine_q2_doc.py` line 59
(`if force or not isfile('%s/DO.tsv' % cur_rad):`).
The backing store is an explicit predicate `fs`. -/

/-- `force or not isfile(path)`. -/
def needs_run (fs : String → Bool) (force : Bool) (path : String) : Bool :=
  force || !(fs path)

/-! ## Case expansion (`_routine_q2_alpha.py`, lines 287-289 and 317-318)

```python
with open(p_perm_groups) as handle:
    cases_dict = yaml.load(handle, Loader=yaml.FullLoader)
cases_dict.update({'ALL': [[]]})
...
for case_var, case_vals_list in cases_dict.items():
    for case_vals in case_vals_list:
        ...
```
A parsed YAML groups file is an insertion-ordered mapping from case-group
name to a list of value-lists, modelled as an association list.
`dict.update` replaces the value in place when the key is present and
appends the pair otherwise. -/

/-- A parsed case-groups mapping. -/
abbrev CaseDict : Type := List (String × List (List String))

/-- `cases_dict.update({'ALL': [[]]})`. -/
def updateAll (d : CaseDict) : CaseDict :=
  if (d.map Prod.fst).contains "ALL" then
    d.map (fun kv => if kv.1 = "ALL" then ("ALL", [[]]) else kv)
  else
    d ++ [("ALL", [[]])]

/-- The doubly nested work-item loop: one item per (group, value-list)
pair, in mapping order. -/
def workItems (d : CaseDict) : List (String × List String) :=
  d.flatMap (fun kv => kv.2.map (fun vals => (kv.1, vals)))

/-! ## `check_absence_mat` (`_routine_q2_cmds.py`, lines 1097-1113) and the
per-dataset loop of `run_permanova` (`_routine_q2_permanova.py`)

```python
def check_absence_mat(mat_qzas, first_print, analysis):
    presence_mat = [mat_qza for mat_qza in mat_qzas if isfile(mat_qza)]
    if not presence_mat:
        if not first_print:
            print('Beta diversity, distances matrices must be generated ...')
            first_print += 1
        return True
    return False
```
The function returns whether all matrices are absent and, as a side
effect, prints the message when its `first_print` argument is zero; the
`first_print += 1` rebinds a local Python integer only, so the increment
never reaches the caller.  The result is modelled as
(return value, whether the message was printed). -/

/-- `check_absence_mat`: (all matrices absent?, message printed?). -/
def check_absence_mat (fs : String → Bool) (mat_qzas : List String)
    (first_print : Nat) : Bool × Bool :=
  if mat_qzas.filter fs = [] then (true, first_print = 0) else (false, false)

/-- The dataset loop of `run_permanova` restricted to the absence check:
`first_print = 0` before the loop, and each iteration runs
`absence_mat = check_absence_mat(mat_qzas, first_print, 'PERMANOVA')`
followed by `if absence_mat: continue`.  Since the caller never rebinds
`first_print`, every call receives `0`.  The result is the list of
processed dataset names (in order) and the number of times the message
was printed. -/
def permanova_scan (fs : String → Bool) (datasets : List (String × List String)) :
    List String × Nat :=
  datasets.foldl
    (fun acc d =>
      let ab := check_absence_mat fs d.2 0
      if ab.1 then (acc.1, acc.2 + (if ab.2 then 1 else 0))
      else (acc.1 ++ [d.1], acc.2))
    ([], 0)

/-! ## `get_paths` (`_routine_q2_io_utils.py`, lines 114-137)

```python
def get_paths(i_datasets, i_datasets_folder):
    tsvs = []
    paths = {}
    for i_dataset in i_datasets:
        tsv = '%s/data/tab_%s.tsv' % (i_datasets_folder, i_dataset)
        biom = '%s.biom' % splitext(tsv)[0]
        tsvs.append(tsv)
        if isfile(tsv):
            paths[i_dataset] = tsv
        elif isfile(biom):
            paths[i_dataset] = biom
    if not paths:
        print('None of these target files found in input folder %s:' % ...)
        for tsv in tsvs:
            print(' - %s (or .biom)' % tsv)
        print('Exiting...')
        sys.exit(1)
    return paths
```
The dict is modelled as an association list in insertion order (requested
dataset names are distinct in practice); `sys.exit(1)` is modelled as an
error carrying the list of searched `.tsv` paths that the function prints
before exiting. -/

/-- `'%s/data/tab_%s.tsv' % (folder, d)`. -/
def tabTsv (folder d : String) : String :=
  folder ++ "/data/tab_" ++ d ++ ".tsv"

/-- `'%s.biom' % splitext(tsv)[0]` (splitting off the `.tsv` extension). -/
def tabBiom (folder d : String) : String :=
  folder ++ "/data/tab_" ++ d ++ ".biom"

/-- The per-dataset resolution step of `get_paths`. -/
def resolveDataset (fs : String → Bool) (folder d : String) :
    Option (String × String) :=
  if fs (tabTsv folder d) then some (d, tabTsv folder d)
  else if fs (tabBiom folder d) then some (d, tabBiom folder d)
  else none

/-- `get_paths` from `_routine_q2_io_utils.py`. -/
def get_paths (fs : String → Bool) (i_datasets : List String) (folder : String) :
    Except (List String) (List (String × String)) :=
  let paths := i_datasets.filterMap (resolveDataset fs folder)
  if paths = [] then Except.error (i_datasets.map (tabTsv folder))
  else Except.ok paths

/-! ## DOC script generation
(`_routine_q2_doc.py` lines 28-69 and `_routine_q2_cmds.py` lines 913-917)

`run_single_doc` derives, per value-list, a deterministic output radical
`cur_rad` from the case label and a temporary radical `cur_rad_token`
from a freshly drawn token

```python
token = '%s%s' % (''.join([str(random.choice(range(100))) for x in range(3)]),
                  time.time())
...
cur_rad = '%s/%s_%s%s' % (odir, case.strip('_'), filt, cur_raref)
cur_rad_token = '%s/tmp/%s/' % (i_dataset_folder, token)
```

and, when `force or not isfile('%s/DO.tsv' % cur_rad)` fires, subsets the
metadata with `get_new_meta_pd` and calls `write_doc`.  That call
(`_routine_q2_doc.py` lines 62-64) passes 19 positional arguments, while
`write_doc` as defined at `_routine_q2_cmds.py` lines 913-917 takes
exactly 14 positional parameters, with no defaults and no varargs; Python
therefore raises `TypeError` when binding the call, before any
chunk-script text is written.  An iteration whose guard fires raises; an
iteration whose guard does not fire completes and contributes only its
`cur_rad` to the returned `cases` list.  The random token never reaches
any script bytes: it only names the temporary directories created on disk
at lines 45-48, which this model does not track.  The three
`random.choice(range(100))` draws and `str(time.time())` are explicit
parameters. -/

/-- Python `s.strip('_')`. -/
def pyStripUnderscore (s : String) : String :=
  String.mk (((s.data.dropWhile (fun c => c = '_')).reverse.dropWhile
    (fun c => c = '_')).reverse)

/-- The token drawn at `_routine_q2_doc.py` line 38:
three `random.choice(range(100))` draws and `str(time.time())`. -/
def docToken (d1 d2 d3 : Fin 100) (now : String) : String :=
  toString d1.val ++ toString d2.val ++ toString d3.val ++ now

/-- The deterministic inputs of one `run_single_doc` iteration. -/
structure DocInputs where
  i_dataset_folder : String
  odir : String
  case_var : String
  case_vals : List String
  filt : String
  cur_raref : String
deriving DecidableEq, Repr

/-- The positional parameters of `write_doc`, transcribed from its
definition at `_routine_q2_cmds.py` lines 913-917. -/
def write_doc_params : List String :=
  ["qza", "fp", "fa", "new_meta", "new_qza", "new_tsv", "cur_rad",
   "new_tsv_token", "cur_rad_token", "n_nodes", "n_procs", "doc_params",
   "cur_sh", "cur_import_sh_o"]

/-- The positional argument expressions of the `write_doc` call,
transcribed from the call site at `_routine_q2_doc.py` lines 62-64. -/
def run_single_doc_call_args : List String :=
  ["qza", "fp", "fa", "new_meta", "new_qza", "new_tsv", "time_log", "log",
   "cur_rad", "new_meta_token", "new_qza_token", "new_tsv_token",
   "time_log_token", "log_token", "cur_rad_token", "n_nodes", "n_procs",
   "doc_params", "cur_sh_o"]

/-- Binding a Python call to a function with only plain positional
parameters (no defaults, no varargs): `TypeError` unless the argument
count equals the parameter count. -/
def pyCallBinds (params args : List String) : Except PError Unit :=
  if args.length = params.length then Except.ok () else Except.error PError.typeError

/-- The output radical `cur_rad = '%s/%s_%s%s' % (odir, case.strip('_'),
filt, cur_raref)` of one `run_single_doc` iteration
(`_routine_q2_doc.py` line 40). -/
def docCurRad (inp : DocInputs) : String :=
  inp.odir ++ "/" ++ pyStripUnderscore (get_case inp.case_vals "" (some inp.case_var)) ++
    "_" ++ inp.filt ++ inp.cur_raref

/-- One iteration of the `for case_vals in case_vals_list` loop of
`run_single_doc` (`_routine_q2_doc.py` lines 37-64): the `cur_rad` the
iteration appends to `cases` when it completes, or the exception it
raises.  When the guard fires, the iteration subsets the metadata and
then attempts the `write_doc` call, whose positional binding fails
(`pyCallBinds`), so the ok branch of that binding is unreachable.
The on-disk effects (directory creation at lines 45-48, the metadata CSV
at line 61) are not tracked. -/
def run_single_doc_step (meta : MetaPd) (inp : DocInputs) (d1 d2 d3 : Fin 100)
    (now : String) (fs : String → Bool) (force : Bool) : Except PError String :=
  let _cur_rad_token := inp.i_dataset_folder ++ "/tmp/" ++ docToken d1 d2 d3 now ++ "/"
  let cur_rad := docCurRad inp
  if needs_run fs force (cur_rad ++ "/DO.tsv") then
    match get_new_meta_pd meta (get_case inp.case_vals "" (some inp.case_var))
        inp.case_var inp.case_vals with
    | Except.ok _ =>
      match pyCallBinds write_doc_params run_single_doc_call_args with
      | Except.ok _ => Except.ok cur_rad
      | Except.error e => Except.error e
    | Except.error e => Except.error e
  else Except.ok cur_rad

/-! ## Specification-side predicates and concrete inputs used to settle the
claims -/

/-- Whether one bound token keeps a row, per `get_new_meta_pd`'s loop: a
`>`-prefixed token keeps rows whose cast value is `>=` the threshold, a
`<`-prefixed token keeps rows whose cast value is `<=` the threshold, and
any other token filters nothing. -/
def boundKeep (c : String) (r : Row) (v : String) : Bool :=
  if pyFirst v = some '>' then optGE (qCell (rowGet r c)) ((parseQ? (v.drop 1)).getD 0)
  else if pyFirst v = some '<' then optLE (qCell (rowGet r c)) ((parseQ? (v.drop 1)).getD 0)
  else true

/-- The suffix `get_case` appends for its optional formula argument. -/
def formSuffix (form : Option String) : String :=
  match form with
  | some f => if f = "" then "" else "_" ++ f
  | none => ""

/-- A metadata table with an `age` column holding 1, 5 and 10. -/
def ageTable : MetaPd :=
  ⟨["age"], [⟨"s1", [("age", Cell.num 1)]⟩, ⟨"s2", [("age", Cell.num 5)]⟩,
             ⟨"s3", [("age", Cell.num 10)]⟩]⟩

/-- A metadata table with a categorical `sex` column. -/
def sexTable : MetaPd :=
  ⟨["sex"], [⟨"s1", [("sex", Cell.str "M")]⟩, ⟨"s2", [("sex", Cell.str "F")]⟩,
             ⟨"s3", [("sex", Cell.str "M")]⟩]⟩

/-- A metadata table whose `site` column holds a discrete value containing
the character `<`. -/
def siteTable : MetaPd :=
  ⟨["site"], [⟨"s1", [("site", Cell.str "x")]⟩, ⟨"s2", [("site", Cell.str "a<b")]⟩]⟩

/-- A metadata table whose `age` column stores numbers as strings (an
object-dtype column in pandas terms). -/
def ageStrTable : MetaPd :=
  ⟨["age"], [⟨"s1", [("age", Cell.str "1")]⟩, ⟨"s2", [("age", Cell.str "5")]⟩]⟩

/-- Concrete deterministic inputs for one `run_single_doc` iteration. -/
def docInputsEx : DocInputs :=
  ⟨"folder", "odir", "site", ["A"], "0_0", ""⟩

/-! ## Theorems for the claims -/

/-- C2: a work item is (re)generated exactly when `force` is set or the
output path does not exist: `needs_run` is false iff the path exists and
`force` is false, and true in the three other cells of the 2x2 truth
table. -/
theorem c2_needs_run_truth_table :
    ∀ (fs : String → Bool) (force : Bool) (path : String),
      (needs_run fs force path = false ↔ (fs path = true ∧ force = false)) ∧
      (needs_run fs force path = true ↔ (force = true ∨ fs path = false)) := by
  intro fs force path
  cases force <;> cases h : fs path <;> simp [needs_run, h]

/-- C7: the inline subsetting of `run_multi_kw` and `get_new_meta_pd`
disagree.  On a discrete value containing `<` (`run_multi_kw` detects
bounds by substring, `get_new_meta_pd` by first character) the two return
different tables; on a numeric-string column with a genuine bound
(`get_new_meta_pd` casts with `astype(float)`, `run_multi_kw` compares the
raw column) `get_new_meta_pd` filters while `run_multi_kw` raises
`TypeError`. -/
theorem c7_subsetting_inconsistent :
    (get_new_meta_pd siteTable "site_c" "site" ["a<b"] =
       Except.ok ⟨["site"], [⟨"s2", [("site", Cell.str "a<b")]⟩]⟩) ∧
    (run_multi_kw_subset siteTable "site_c" "site" ["a<b"] = Except.ok siteTable) ∧
    (get_new_meta_pd siteTable "site_c" "site" ["a<b"] ≠
       run_multi_kw_subset siteTable "site_c" "site" ["a<b"]) ∧
    (get_new_meta_pd ageStrTable "age_above2" "age" [">2"] =
       Except.ok ⟨["age"], [⟨"s2", [("age", Cell.str "5")]⟩]⟩) ∧
    (run_multi_kw_subset ageStrTable "age_above2" "age" [">2"] =
       Except.error PError.typeError) := by
  exact ⟨by decide, by decide, by decide, by decide, by decide⟩

/-- C3: expanding a case-groups mapping appends an `ALL` group whose sole
value-list is empty, expansion produces one work item per (group,
value-list) pair, and the mapping `{"site": [["A"],["B"]]}` expands to
exactly the three work items labelled `site_A`, `site_B` and `ALL`. -/
theorem c3_case_expansion :
    (∀ d : CaseDict, "ALL" ∉ d.map Prod.fst → updateAll d = d ++ [("ALL", [[]])]) ∧
    (∀ d : CaseDict, (workItems d).length = (d.map (fun kv => kv.2.length)).sum) ∧
    ((workItems (updateAll [("site", [["A"], ["B"]])])).map
        (fun it => get_case it.2 it.1 none) = ["site_A", "site_B", "ALL"]) := by
  refine ⟨?_, ?_, by decide⟩
  · intro d h
    simp [updateAll, List.elem_iff, h]
  · intro d
    induction d with
    | nil => rfl
    | cons kv rest ih =>
      simp [workItems, List.flatMap_cons, List.length_append, List.length_map] at ih ⊢
      omega

/-- Witness for C3 at the mapping `{"site": [["A"],["B"]]}`. -/
theorem c3_case_expansion_witness :
    updateAll [("site", [["A"], ["B"]])] = [("site", [["A"], ["B"]]), ("ALL", [[]])] ∧
    (workItems (updateAll [("site", [["A"], ["B"]])])).length = 3 := by
  constructor
  · exact c3_case_expansion.1 [("site", [["A"], ["B"]])] (by decide)
  · rw [c3_case_expansion.2.1 (updateAll [("site", [["A"], ["B"]])])]
    decide

/-- C4: `get_case` builds the label by joining the sanitised value tokens
(`<` to `below`, `>` to `above`) with `-`, prefixing the variable name,
suffixing a non-empty formula, then collapsing `__`, mapping spaces to `-`
and deleting `/`, `(`, `)`; an empty value-list contributes only the
variable name.  In particular the label of `['>10','<20']` with variable
`depth` is `depth_above10-below20`. -/
theorem c4_get_case_label :
    (get_case [">10", "<20"] "depth" none = "depth_above10-below20") ∧
    (∀ vals var form, vals ≠ [] →
      get_case vals var form =
        cleanLabel (var ++ "_" ++ pyJoin "-" (vals.map sanitizeVal) ++ formSuffix form)) ∧
    (∀ var form, get_case [] var form = cleanLabel (var ++ formSuffix form)) := by
  refine ⟨by decide, ?_, ?_⟩
  · intro vals var form h
    have hlen : vals.length ≠ 0 := fun hl => h (List.length_eq_zero.mp hl)
    cases form with
    | none => simp [get_case, hlen, formSuffix]
    | some f =>
      by_cases hf : f = "" <;>
        simp [get_case, hlen, formSuffix, hf, String.append_assoc]
  · intro var form
    cases form with
    | none => simp [get_case, formSuffix]
    | some f =>
      by_cases hf : f = ""
      · simp [get_case, formSuffix, hf]
      · simp [get_case, formSuffix, hf]
        rw [String.append_assoc]

/-- Witness for C4 at a non-empty value-list with a formula containing a
space. -/
theorem c4_get_case_label_witness :
    (get_case ["M", "F"] "sex" (some "a b") =
      cleanLabel ("sex" ++ "_" ++ pyJoin "-" (["M", "F"].map sanitizeVal) ++
        formSuffix (some "a b"))) ∧
    get_case ["M", "F"] "sex" (some "a b") = "sex_M-F_a-b" := by
  exact ⟨c4_get_case_label.2.1 ["M", "F"] "sex" (some "a b") (by decide), by decide⟩

/-- When the target column is absent and some token is bound-prefixed, the
bound loop of `get_new_meta_pd` raises `KeyError` (the first bound-prefixed
token accesses the column; earlier tokens filter nothing). -/
theorem applyBounds_keyError (c : String) (meta : MetaPd) (vals : List String)
    (hcol : meta.columns.contains c = false)
    (hdet : (vals.filter isBoundTok).length ≠ 0) :
    applyBounds c meta vals = Except.error PError.keyError := by
  induction vals generalizing meta with
  | nil => simp at hdet
  | cons v vs ih =>
    have hmem : c ∉ meta.columns := by
      simpa [List.elem_iff] using hcol
    by_cases hv : isBoundTok v = true
    · have hstep : boundStep c meta v = Except.error PError.keyError := by
        have hv2 : pyFirst v = some '>' ∨ pyFirst v = some '<' := by
          simpa [isBoundTok] using hv
        rcases hv2 with h | h
        · simp [boundStep, filterBound, h, hmem]
        · by_cases hgt : pyFirst v = some '>'
          · simp [boundStep, filterBound, hgt, hmem]
          · simp [boundStep, filterBound, hgt, h, hmem]
      simp [applyBounds, hstep]
    · have hv2 : ¬ pyFirst v = some '>' ∧ ¬ pyFirst v = some '<' := by
        simpa [isBoundTok] using hv
      have hstep : boundStep c meta v = Except.ok meta := by
        simp [boundStep, hv2.1, hv2.2]
      have hdet2 : (vs.filter isBoundTok).length ≠ 0 := by
        simpa [List.filter_cons, hv] using hdet
      simp only [applyBounds, hstep]
      exact ih meta hcol hdet2

/-- C8: on a table lacking the target column, `get_new_meta_pd` applied to
a non-`ALL` case propagates the missing-column error (`KeyError`) instead
of returning a filtered table. -/
theorem c8_missing_column_error :
    ∀ (meta : MetaPd) (cas case_var : String) (case_vals : List String),
      pyContains cas "ALL" = false →
      meta.columns.contains case_var = false →
      get_new_meta_pd meta cas case_var case_vals = Except.error PError.keyError := by
  intro meta cas cv vals hall hcol
  by_cases hdet : (vals.filter isBoundTok).length ≠ 0
  · have h := applyBounds_keyError cv meta vals hcol hdet
    simp [get_new_meta_pd, hall, hdet, h]
  · have hmem : cv ∉ meta.columns := by
      simpa [List.elem_iff] using hcol
    simp [get_new_meta_pd, hall, hdet, hmem]

/-- Witness for C8: a table with only an `age` column, subset on `sex`. -/
theorem c8_missing_column_error_witness :
    get_new_meta_pd ageTable "sex_M" "sex" ["M"] = Except.error PError.keyError :=
  c8_missing_column_error ageTable "sex_M" "sex" ["M"] (by decide) (by decide)

/-- C5: for a non-`ALL` case whose value-list has no bound-prefixed entry,
`get_new_meta_pd` keeps exactly the input rows whose target-column value is
a member of the value-list, in the input order (a list `filter`). -/
theorem c5_discrete_membership :
    ∀ (meta : MetaPd) (cas case_var : String) (case_vals : List String),
      pyContains cas "ALL" = false →
      (∀ v ∈ case_vals, isBoundTok v = false) →
      meta.columns.contains case_var = true →
      get_new_meta_pd meta cas case_var case_vals =
        Except.ok ⟨meta.columns,
          meta.rows.filter (fun r => cellIn (rowGet r case_var) case_vals)⟩ := by
  intro meta cas cv vals hall hnb hcol
  have hdet : (vals.filter isBoundTok).length = 0 := by
    have : vals.filter isBoundTok = [] := by
      rw [List.filter_eq_nil_iff]
      intro a ha
      simp [hnb a ha]
    simp [this]
  have hmem : cv ∈ meta.columns := by
    simpa [List.elem_iff] using hcol
  simp [get_new_meta_pd, hall, hdet, hmem]

/-- Witness for C5: membership subsetting on a categorical `sex` column
keeps the two `M` rows in order. -/
theorem c5_discrete_membership_witness :
    get_new_meta_pd sexTable "sex_M" "sex" ["M"] =
      Except.ok ⟨["sex"], [⟨"s1", [("sex", Cell.str "M")]⟩,
                           ⟨"s3", [("sex", Cell.str "M")]⟩]⟩ := by
  rw [c5_discrete_membership sexTable "sex_M" "sex" ["M"] (by decide) (by decide) (by decide)]
  decide

/-- The `run_permanova` loop with an arbitrary accumulator: processed
names are appended for datasets with a present matrix, the print counter
grows by one for each dataset with none. -/
theorem permanova_scan_aux (fs : String → Bool) (ds : List (String × List String))
    (acc : List String × Nat) :
    ds.foldl
      (fun acc d =>
        let ab := check_absence_mat fs d.2 0
        if ab.1 then (acc.1, acc.2 + (if ab.2 then 1 else 0))
        else (acc.1 ++ [d.1], acc.2)) acc =
    (acc.1 ++ (ds.filter (fun d => !(check_absence_mat fs d.2 0).1)).map Prod.fst,
     acc.2 + (ds.filter (fun d => (check_absence_mat fs d.2 0).1)).length) := by
  induction ds generalizing acc with
  | nil => simp
  | cons d rest ih =>
    by_cases h : (check_absence_mat fs d.2 0).1 = true
    · have hpr : (check_absence_mat fs d.2 0).2 = true := by
        unfold check_absence_mat at h ⊢
        by_cases hf : d.2.filter fs = [] <;> simp [hf] at h ⊢
      simp only [List.foldl_cons, List.filter_cons, h, hpr, if_true]
      rw [ih]
      simp [h, hpr]
      omega
    · simp only [List.foldl_cons, List.filter_cons, h, if_false]
      rw [ih]
      simp [h]

/-- C9 (amended): `check_absence_mat` returns true exactly when none of
the listed matrix files exists; `run_permanova` skips exactly the
datasets whose matrices are all absent and continues with the rest; the
explanatory message is printed once per such dataset (the caller never
propagates `first_print`, so it is not limited to once across
datasets). -/
theorem c9_absence_skip :
    (∀ (fs : String → Bool) (mats : List String) (fp : Nat),
      (check_absence_mat fs mats fp).1 = true ↔ ∀ m ∈ mats, fs m = false) ∧
    (∀ (fs : String → Bool) (ds : List (String × List String)),
      (permanova_scan fs ds).1 =
        (ds.filter (fun d => !(check_absence_mat fs d.2 0).1)).map Prod.fst) ∧
    (∀ (fs : String → Bool) (ds : List (String × List String)),
      (permanova_scan fs ds).2 =
        (ds.filter (fun d => (check_absence_mat fs d.2 0).1)).length) := by
  refine ⟨?_, ?_, ?_⟩
  · intro fs mats fp
    constructor
    · intro ht m hm
      by_cases h : mats.filter fs = []
      · have := List.filter_eq_nil_iff.mp h m hm
        simpa using this
      · simp [check_absence_mat, h] at ht
    · intro hall
      have h : mats.filter fs = [] :=
        List.filter_eq_nil_iff.mpr (fun m hm => by simp [hall m hm])
      simp [check_absence_mat, h]
  · intro fs ds
    rw [permanova_scan, permanova_scan_aux]
    simp
  · intro fs ds
    rw [permanova_scan, permanova_scan_aux]
    simp

/-- Counterexample to C9 as stated: with two datasets whose matrices are
all absent, the message is printed twice, not at most once across
datasets. -/
theorem c9_print_once_counterexample :
    (permanova_scan (fun _ => false) [("d1", ["m1"]), ("d2", ["m2"])]).2 = 2 ∧
    ¬ (permanova_scan (fun _ => false) [("d1", ["m1"]), ("d2", ["m2"])]).2 ≤ 1 := by
  exact ⟨by decide, by decide⟩

/-- Witness for C9 on a concrete store: one dataset with a present matrix
is processed, one with none is skipped with a print. -/
theorem c9_absence_skip_witness :
    ((check_absence_mat (fun p => p = "m2") ["m1"] 0).1 = true) ∧
    (permanova_scan (fun p => p = "m2") [("d1", ["m1"]), ("d2", ["m2"])]).1 = ["d2"] := by
  constructor
  · exact (c9_absence_skip.1 (fun p => p = "m2") ["m1"] 0).mpr (by decide)
  · rw [c9_absence_skip.2.1 (fun p => p = "m2") [("d1", ["m1"]), ("d2", ["m2"])]]
    decide

/-- A successful resolution in `get_paths` keys the pair by the requested
dataset name. -/
theorem resolveDataset_some_fst (fs : String → Bool) (folder a : String)
    (pr : String × String) (h : resolveDataset fs folder a = some pr) : pr.1 = a := by
  unfold resolveDataset at h
  by_cases g1 : fs (tabTsv folder a) = true
  · simp [g1] at h
    simp [← h]
  · by_cases g2 : fs (tabBiom folder a) = true
    · simp [g1, g2] at h
      simp [← h]
    · simp [g1, g2] at h

/-- C10: `get_paths` maps each requested dataset to its `.tsv` table when
present, else its `.biom` table when present, silently omits datasets with
neither, and prints the searched paths and exits with status 1 exactly
when no requested dataset has either file. -/
theorem c10_get_paths :
    ∀ (fs : String → Bool) (ds : List String) (folder : String),
      (get_paths fs ds folder = Except.error (ds.map (tabTsv folder)) ↔
        ∀ d ∈ ds, fs (tabTsv folder d) = false ∧ fs (tabBiom folder d) = false) ∧
      (∀ L, get_paths fs ds folder = Except.ok L →
        ∀ d ∈ ds,
          (fs (tabTsv folder d) = true → (d, tabTsv folder d) ∈ L) ∧
          (fs (tabTsv folder d) = false → fs (tabBiom folder d) = true →
            (d, tabBiom folder d) ∈ L) ∧
          (fs (tabTsv folder d) = false → fs (tabBiom folder d) = false →
            ∀ p, (d, p) ∉ L)) := by
  intro fs ds folder
  constructor
  · constructor
    · intro he d hd
      by_cases hp : ds.filterMap (resolveDataset fs folder) = []
      · have hnone := List.filterMap_eq_nil_iff.mp hp d hd
        constructor
        · by_cases h1 : fs (tabTsv folder d) = true
          · simp [resolveDataset, h1] at hnone
          · simpa using h1
        · by_cases h2 : fs (tabBiom folder d) = true
          · by_cases h1 : fs (tabTsv folder d) = true
            · simp [resolveDataset, h1] at hnone
            · simp [resolveDataset, h1, h2] at hnone
          · simpa using h2
      · simp [get_paths, hp] at he
    · intro hall
      have hp : ds.filterMap (resolveDataset fs folder) = [] := by
        rw [List.filterMap_eq_nil_iff]
        intro d hd
        simp [resolveDataset, (hall d hd).1, (hall d hd).2]
      simp [get_paths, hp]
  · intro L hL d hd
    have hp : ¬ ds.filterMap (resolveDataset fs folder) = [] := by
      intro hp
      simp [get_paths, hp] at hL
    have hLeq : L = ds.filterMap (resolveDataset fs folder) := by
      simp [get_paths, hp] at hL
      exact hL.symm
    refine ⟨?_, ?_, ?_⟩
    · intro h1
      rw [hLeq, List.mem_filterMap]
      exact ⟨d, hd, by simp [resolveDataset, h1]⟩
    · intro h1 h2
      rw [hLeq, List.mem_filterMap]
      exact ⟨d, hd, by simp [resolveDataset, h1, h2]⟩
    · intro h1 h2 p hmem
      rw [hLeq] at hmem
      rcases List.mem_filterMap.mp hmem with ⟨a, ha, hres⟩
      have had : a = d := by
        have := resolveDataset_some_fst fs folder a (d, p) hres
        simpa using this.symm
      subst had
      simp [resolveDataset, h1, h2] at hres

/-- Witness for C10 on a concrete store holding only `f/data/tab_a.biom`. -/
theorem c10_get_paths_witness :
    ("a", "f/data/tab_a.biom") ∈ [(("a" : String), ("f/data/tab_a.biom" : String))] := by
  have h := (c10_get_paths (fun p => p = "f/data/tab_a.biom") ["a"] "f").2
    [("a", "f/data/tab_a.biom")] (by decide) "a" (by decide)
  exact h.2.1 (by decide) (by decide)

/-- On a castable cell, the cast succeeds with the cell's float value. -/
theorem cellFloat_of_castOk (c : Cell) (h : castOk c = true) :
    cellFloat c = Except.ok (qCell c) := by
  cases c with
  | num q => rfl
  | na => rfl
  | str s =>
    have hs : (parseQ? s).isSome = true := by simpa [castOk] using h
    obtain ⟨q, hq⟩ := Option.isSome_iff_exists.mp hs
    simp [cellFloat, qCell, hq]

/-- Casting a fully castable column succeeds and tags each row with its
float value. -/
theorem castColumn_ok (c : String) (rows : List Row)
    (h : ∀ r ∈ rows, castOk (rowGet r c) = true) :
    castColumn c rows = Except.ok (rows.map (fun r => (r, qCell (rowGet r c)))) := by
  induction rows with
  | nil => rfl
  | cons r rs ih =>
    have h1 := cellFloat_of_castOk _ (h r (by simp))
    have h2 := ih (fun x hx => h x (by simp [hx]))
    simp [castColumn, h1, h2]

/-- One bound filter of `get_new_meta_pd` on a present, castable column
with a parseable threshold: a plain list `filter` by the comparison. -/
theorem filterBound_ok (meta : MetaPd) (c : String) (cmp : Option ℚ → ℚ → Bool)
    (v : String) (t : ℚ) (hcol : c ∈ meta.columns)
    (hcast : ∀ r ∈ meta.rows, castOk (rowGet r c) = true)
    (ht : parseQ? v = some t) :
    filterBound meta c cmp v =
      Except.ok ⟨meta.columns, meta.rows.filter (fun r => cmp (qCell (rowGet r c)) t)⟩ := by
  unfold filterBound
  rw [castColumn_ok c meta.rows hcast]
  simp only [pyFloat, ht]
  have hc : meta.columns.contains c = true := by
    simpa [List.elem_iff] using hcol
  rw [if_pos hc]
  rw [List.filter_map, List.map_map]
  have h1 : ((fun (rq : Row × Option ℚ) => rq.1) ∘ fun r => (r, qCell (rowGet r c))) = id := rfl
  have h2 : ((fun (rq : Row × Option ℚ) => cmp rq.2 t) ∘ fun r => (r, qCell (rowGet r c)))
      = fun r => cmp (qCell (rowGet r c)) t := rfl
  rw [h1, h2, List.map_id]

/-- One iteration of the bound loop on a present, castable column:
a plain list `filter` by `boundKeep`. -/
theorem boundStep_ok (c : String) (meta : MetaPd) (v : String)
    (hcol : c ∈ meta.columns)
    (hcast : ∀ r ∈ meta.rows, castOk (rowGet r c) = true)
    (hparse : isBoundTok v = true → (parseQ? (v.drop 1)).isSome) :
    boundStep c meta v =
      Except.ok ⟨meta.columns, meta.rows.filter (fun r => boundKeep c r v)⟩ := by
  by_cases hgt : pyFirst v = some '>'
  · have hb : isBoundTok v = true := by simp [isBoundTok, hgt]
    obtain ⟨t, ht⟩ := Option.isSome_iff_exists.mp (hparse hb)
    rw [boundStep, if_pos hgt, filterBound_ok meta c optGE _ t hcol hcast ht]
    simp [boundKeep, hgt, ht]
  · by_cases hlt : pyFirst v = some '<'
    · have hb : isBoundTok v = true := by simp [isBoundTok, hlt]
      obtain ⟨t, ht⟩ := Option.isSome_iff_exists.mp (hparse hb)
      rw [boundStep, if_neg hgt, if_pos hlt, filterBound_ok meta c optLE _ t hcol hcast ht]
      simp [boundKeep, hgt, hlt, ht]
    · simp [boundStep, hgt, hlt, boundKeep, List.filter_true]

/-- The whole bound loop on a present, castable column with parseable
thresholds: an AND of all the individual bound filters. -/
theorem applyBounds_ok (c : String) (meta : MetaPd) (vals : List String)
    (hcol : c ∈ meta.columns)
    (hcast : ∀ r ∈ meta.rows, castOk (rowGet r c) = true)
    (hparse : ∀ v ∈ vals, isBoundTok v = true → (parseQ? (v.drop 1)).isSome) :
    applyBounds c meta vals =
      Except.ok ⟨meta.columns, meta.rows.filter (fun r => vals.all (boundKeep c r))⟩ := by
  induction vals generalizing meta with
  | nil => simp [applyBounds, List.filter_true]
  | cons v vs ih =>
    have hstep := boundStep_ok c meta v hcol hcast (hparse v (by simp))
    simp only [applyBounds, hstep]
    have hcast2 : ∀ r ∈ meta.rows.filter (fun r => boundKeep c r v),
        castOk (rowGet r c) = true := by
      intro r hr
      exact hcast r (List.mem_of_mem_filter hr)
    have hparse2 : ∀ w ∈ vs, isBoundTok w = true → (parseQ? (w.drop 1)).isSome := by
      intro w hw
      exact hparse w (by simp [hw])
    rw [ih ⟨meta.columns, meta.rows.filter (fun r => boundKeep c r v)⟩ hcol hcast2 hparse2]
    simp [List.filter_filter, List.all_cons, Bool.and_comm]

/-- C1: for a non-`ALL` case with at least one bound-prefixed entry on a
present, castable column with parseable thresholds, `get_new_meta_pd`
AND-filters the table, keeping a row exactly when its cast value is `>=`
the threshold of each `>`-prefixed entry and `<=` the threshold of each
`<`-prefixed entry. -/
theorem c1_bound_subsetting :
    ∀ (meta : MetaPd) (cas case_var : String) (case_vals : List String),
      pyContains cas "ALL" = false →
      (case_vals.filter isBoundTok).length ≠ 0 →
      case_var ∈ meta.columns →
      (∀ v ∈ case_vals, isBoundTok v = true → (parseQ? (v.drop 1)).isSome) →
      (∀ r ∈ meta.rows, castOk (rowGet r case_var) = true) →
      get_new_meta_pd meta cas case_var case_vals =
        Except.ok ⟨meta.columns,
          meta.rows.filter (fun r => case_vals.all (boundKeep case_var r))⟩ := by
  intro meta cas cv vals hall hdet hcol hparse hcast
  have h := applyBounds_ok cv meta vals hcol hcast hparse
  simp [get_new_meta_pd, hall, hdet, h]

/-- Witness for C1: ages 1, 5, 10 with value-list `['<5']` keep exactly
the rows with age 1 and age 5. -/
theorem c1_bound_subsetting_witness :
    get_new_meta_pd ageTable "age_below5" "age" ["<5"] =
      Except.ok ⟨["age"], [⟨"s1", [("age", Cell.num 1)]⟩,
                           ⟨"s2", [("age", Cell.num 5)]⟩]⟩ := by
  rw [c1_bound_subsetting ageTable "age_below5" "age" ["<5"] (by decide) (by decide)
    (by decide) (by decide) (by decide)]
  decide

/-- C6: the DOC generator cannot regenerate its chunk scripts at all.
The `write_doc` call site passes 19 positional arguments while `write_doc`
takes 14 positional parameters, so the binding raises `TypeError`: every
`run_single_doc` iteration whose skip-if-exists guard fires (and whose
metadata subsetting succeeds) raises before writing any script text, and
an iteration whose guard does not fire only contributes its deterministic
`cur_rad`; in particular the concrete iteration with `force` set raises
`TypeError`.  No byte-identical (or any) chunk-script text is ever
emitted, contradicting the regeneration contract the claim states. -/
theorem c6_doc_write_doc_arity_bug :
    (write_doc_params.length = 14 ∧ run_single_doc_call_args.length = 19 ∧
      pyCallBinds write_doc_params run_single_doc_call_args =
        Except.error PError.typeError) ∧
    (∀ (meta : MetaPd) (inp : DocInputs) (d1 d2 d3 : Fin 100) (now : String)
        (fs : String → Bool) (force : Bool) (nm : MetaPd),
      needs_run fs force (docCurRad inp ++ "/DO.tsv") = true →
      get_new_meta_pd meta (get_case inp.case_vals "" (some inp.case_var))
          inp.case_var inp.case_vals = Except.ok nm →
      run_single_doc_step meta inp d1 d2 d3 now fs force =
        Except.error PError.typeError) ∧
    (∀ (meta : MetaPd) (inp : DocInputs) (d1 d2 d3 : Fin 100) (now : String)
        (fs : String → Bool) (force : Bool),
      needs_run fs force (docCurRad inp ++ "/DO.tsv") = false →
      run_single_doc_step meta inp d1 d2 d3 now fs force =
        Except.ok (docCurRad inp)) ∧
    (run_single_doc_step siteTable docInputsEx 0 0 0 "100.01" (fun _ => false) true =
      Except.error PError.typeError) := by
  have hbind : pyCallBinds write_doc_params run_single_doc_call_args =
      Except.error PError.typeError := by decide
  refine ⟨⟨by decide, by decide, hbind⟩, ?_, ?_, by decide⟩
  · intro meta inp d1 d2 d3 now fs force nm hrun hmeta
    simp [run_single_doc_step, hrun, hmeta, hbind]
  · intro meta inp d1 d2 d3 now fs force hrun
    simp [run_single_doc_step, hrun]

end RoutineQ2
